import Mathlib

/-!
Shallow embedding of the conversational lead-capture service in `app.py`:
the `LeadManager` storage operations over the `leads` and `mensagens` tables,
the `SDRChatbot` prompt assembly and error handling of `get_response`, and the
`/chat` request handler that wires them together.

Modelling conventions:
* a SQL NULL text column is `Option String` (`none` = NULL);
* the monotonically increasing insertion timestamp of `mensagens` rows is a
  `Nat` counter `nextTs` held in the database state;
* the `try/except` swallowing of an underlying storage failure is an explicit
  boolean success flag (`ok`) on the operations whose failure behaviour the
  specification talks about;
* the single outbound HTTP call of `get_response` is a function
  `net : List ChatMsg → ApiOutcome` applied once to the assembled prompt; the
  four outcomes mirror the `try/except` arms of the source.
-/

/-- One row of the `mensagens` table. -/
structure Msg where
  session_id : String
  role : String
  content : String
  timestamp : Nat
  deriving DecidableEq, Repr

/-- One row of the `leads` table; text columns are NULL by default and
`qualificado` defaults to false, as in the DDL. -/
structure Lead where
  session_id : String
  nome : Option String := none
  empresa : Option String := none
  segmento : Option String := none
  problema : Option String := none
  investimento_atual : Option String := none
  telefone : Option String := none
  email : Option String := none
  qualificado : Bool := false
  conversa_completa : Option String := none
  deriving DecidableEq, Repr

/-- The database state behind `LeadManager`. -/
structure DB where
  leads : List Lead
  mensagens : List Msg
  nextTs : Nat
  deriving DecidableEq, Repr

/-- The empty database produced by `init_database`. -/
def initDB : DB :=
  { leads := [], mensagens := [], nextTs := 0 }

/-- A value supplied in the `data` dict of `update_lead`: the lead columns are
text except for the boolean `qualificado`. -/
inductive Val where
  | vstr (s : String)
  | vbool (b : Bool)
  deriving DecidableEq, Repr

/-- The allow-list of `update_lead` (`allowed_fields` in the source). -/
def allowed_fields : List String :=
  ["nome", "empresa", "segmento", "problema", "investimento_atual",
   "telefone", "email", "qualificado", "conversa_completa"]

/-- Apply one `column = value` SET clause to a lead row; a key outside the
schema (or a value of the wrong column type) changes nothing. -/
def applyField (l : Lead) (kv : String × Val) : Lead :=
  match kv.2 with
  | .vstr v =>
    if kv.1 = "nome" then { l with nome := some v }
    else if kv.1 = "empresa" then { l with empresa := some v }
    else if kv.1 = "segmento" then { l with segmento := some v }
    else if kv.1 = "problema" then { l with problema := some v }
    else if kv.1 = "investimento_atual" then { l with investimento_atual := some v }
    else if kv.1 = "telefone" then { l with telefone := some v }
    else if kv.1 = "email" then { l with email := some v }
    else if kv.1 = "conversa_completa" then { l with conversa_completa := some v }
    else l
  | .vbool v =>
    if kv.1 = "qualificado" then { l with qualificado := v }
    else l

/-- `LeadManager.create_lead`: `INSERT OR IGNORE` / `ON CONFLICT DO NOTHING`
of a fresh row keyed by `session_id`; returns `true` on the non-exceptional
path whether or not a row was inserted. -/
def create_lead (db : DB) (session_id : String) : Bool × DB :=
  if db.leads.any (fun l => l.session_id = session_id) then
    (true, db)
  else
    (true, { db with leads := db.leads ++ [{ session_id := session_id }] })

/-- `LeadManager.update_lead`: keep only the allow-listed keys of `data`; when
none remain no UPDATE is issued; otherwise every row matching `session_id`
receives the SET clauses. Returns `true` on the non-exceptional path. -/
def update_lead (db : DB) (session_id : String) (data : List (String × Val)) :
    Bool × DB :=
  let fields := data.filter (fun kv => allowed_fields.contains kv.1)
  if fields.isEmpty then
    (true, db)
  else
    (true, { db with leads := db.leads.map (fun l =>
        if l.session_id = session_id then fields.foldl applyField l else l) })

/-- `LeadManager.save_message` with its storage-failure flag: on success the
message row is appended with the next timestamp; on an underlying failure the
`except` arm returns `false` and the database is unchanged. -/
def save_message_r (ok : Bool) (db : DB) (session_id role content : String) :
    Bool × DB :=
  if ok then
    (true, { db with
      mensagens := db.mensagens ++
        [{ session_id := session_id, role := role, content := content,
           timestamp := db.nextTs }],
      nextTs := db.nextTs + 1 })
  else
    (false, db)

/-- `LeadManager.save_message` on the non-exceptional path. -/
def save_message (db : DB) (session_id role content : String) : Bool × DB :=
  save_message_r true db session_id role content

/-- What `get_conversation_history` returns per row: `SELECT role, content,
timestamp`. -/
structure HistEntry where
  role : String
  content : String
  timestamp : Nat
  deriving DecidableEq, Repr

/-- Stable insertion of a message into a timestamp-sorted list: it lands before
the first element whose timestamp is not smaller. -/
def insertTs (m : Msg) : List Msg → List Msg
  | [] => [m]
  | x :: xs => if x.timestamp < m.timestamp then x :: insertTs m xs else m :: x :: xs

/-- The `ORDER BY timestamp ASC` of `get_conversation_history`, as a stable
insertion sort. -/
def orderByTs : List Msg → List Msg
  | [] => []
  | x :: xs => insertTs x (orderByTs xs)

/-- `LeadManager.get_conversation_history` with its storage-failure flag: the
rows for `session_id` ordered by ascending timestamp, or `[]` when the
underlying storage fails. -/
def get_conversation_history_r (ok : Bool) (db : DB) (session_id : String) :
    List HistEntry :=
  if ok then
    (orderByTs (db.mensagens.filter (fun m => m.session_id = session_id))).map
      (fun m => { role := m.role, content := m.content, timestamp := m.timestamp })
  else
    []

/-- `LeadManager.get_conversation_history` on the non-exceptional path. -/
def get_conversation_history (db : DB) (session_id : String) : List HistEntry :=
  get_conversation_history_r true db session_id

/-- The dict returned by `get_leads_stats`. -/
structure Stats where
  total_leads : Nat
  leads_qualificados : Nat
  leads_com_nome : Nat
  leads_com_email : Nat
  taxa_qualificacao : ℚ
  deriving DecidableEq, Repr

/-- Rounding to one decimal place, as `round(x, 1)` does in the source. -/
def roundTo1 (q : ℚ) : ℚ :=
  (round (q * 10) : ℚ) / 10

/-- `LeadManager.get_leads_stats`: `COUNT(*)`, `COUNT(CASE WHEN qualificado
...)`, `COUNT(CASE WHEN nome IS NOT NULL ...)`, `COUNT(CASE WHEN email IS NOT
NULL ...)`, and `round((qualified/total*100) if total > 0 else 0, 1)`. -/
def get_leads_stats (db : DB) : Stats :=
  let total := db.leads.length
  let qualified := (db.leads.filter (fun l => l.qualificado)).length
  let comNome := (db.leads.filter (fun l => l.nome.isSome)).length
  let comEmail := (db.leads.filter (fun l => l.email.isSome)).length
  { total_leads := total
    leads_qualificados := qualified
    leads_com_nome := comNome
    leads_com_email := comEmail
    taxa_qualificacao :=
      roundTo1 (if 0 < total then (qualified : ℚ) / (total : ℚ) * 100 else 0) }

/-- Python's `str.strip()`: drop whitespace from both ends. Written with
structural recursion over the character list so concrete strings evaluate by
kernel reduction. -/
def pyStrip (s : String) : String :=
  ⟨((s.data.dropWhile Char.isWhitespace).reverse.dropWhile
      Char.isWhitespace).reverse⟩

/-- One entry of the `messages` array sent to the completion API. -/
structure ChatMsg where
  role : String
  content : String
  deriving DecidableEq, Repr

/-- The `SDRChatbot` instance state: the API key and the fixed system prompt
set in `__init__`. -/
structure SDRChatbot where
  api_key : String
  system_prompt : String
  deriving DecidableEq, Repr

/-- The prompt assembly of `SDRChatbot.get_response`: the fixed system block,
then `conversation_history[-8:] if len(conversation_history) > 8 else
conversation_history` with role/content copied over, then the new message as a
final user entry. -/
def build_messages (bot : SDRChatbot) (message : String)
    (conversation_history : List HistEntry) : List ChatMsg :=
  let messages : List ChatMsg := [{ role := "system", content := bot.system_prompt }]
  let recent_history :=
    if conversation_history.length > 8 then
      conversation_history.drop (conversation_history.length - 8)
    else
      conversation_history
  messages ++ recent_history.map (fun m => { role := m.role, content := m.content })
    ++ [{ role := "user", content := message }]

/-- The observable outcome of the one `requests.post` call: a 2xx body text,
`requests.exceptions.Timeout`, `requests.exceptions.HTTPError` raised by
`raise_for_status` on a non-2xx status, or any other transport/parse error. -/
inductive ApiOutcome where
  | success (text : String)
  | timeout
  | httpError
  | otherError
  deriving DecidableEq, Repr

/-- The fixed fallback string of the `Timeout` arm. -/
def timeout_fallback : String :=
  "Ops, demorei um pouco para responder. Pode repetir sua pergunta?"

/-- The fixed fallback string of the `HTTPError` arm. -/
def http_error_fallback : String :=
  "Tive um probleminha técnico. Pode tentar novamente?"

/-- The fixed fallback string of the catch-all `Exception` arm. -/
def generic_error_fallback : String :=
  "Ops, tive um problema técnico. Pode repetir sua pergunta?"

/-- `SDRChatbot.get_response`: assemble the prompt, perform the single
outbound call, and map every outcome to a string — the trimmed first choice on
success, a fixed fallback per failure arm otherwise. -/
def get_response (bot : SDRChatbot) (message : String)
    (conversation_history : List HistEntry) (net : List ChatMsg → ApiOutcome) :
    String :=
  match net (build_messages bot message conversation_history) with
  | .success text => pyStrip text
  | .timeout => timeout_fallback
  | .httpError => http_error_fallback
  | .otherError => generic_error_fallback

/-- The response of the `/chat` handler: a 200 JSON body or an error JSON with
its HTTP status. -/
inductive ChatResult where
  | ok (response : String) (session_id : String)
  | err (error : String) (status : Nat)
  deriving DecidableEq, Repr

/-- The `/chat` request handler. `chatbot = none` models a missing
`GROQ_API_KEY`; `has_lead_manager = false` a failed store initialisation; the
three flags are the success of the two `save_message` calls and of
`get_conversation_history`. The booleans returned by `save_message` are
discarded, exactly as the source discards them. -/
def chat (chatbot : Option SDRChatbot) (has_lead_manager : Bool) (db : DB)
    (raw_message : String) (session_id : Option String)
    (save_user_ok history_ok save_bot_ok : Bool)
    (net : List ChatMsg → ApiOutcome) : ChatResult × DB :=
  match chatbot with
  | none => (.err "Chatbot não configurado. Verifique GROQ_API_KEY." 500, db)
  | some bot =>
    if ¬has_lead_manager then
      (.err "Sistema de banco não configurado." 500, db)
    else
      let user_message := pyStrip raw_message
      if user_message = "" then
        (.err "Mensagem vazia" 400, db)
      else
        match session_id with
        | none => (.err "Sessão inválida" 400, db)
        | some sid =>
          if sid = "" then
            (.err "Sessão inválida" 400, db)
          else
            let r1 := save_message_r save_user_ok db sid "user" user_message
            let history := get_conversation_history_r history_ok r1.2 sid
            let bot_response := get_response bot user_message history net
            let r2 := save_message_r save_bot_ok r1.2 sid "assistant" bot_response
            (.ok bot_response sid, r2.2)

/-- Number of `leads` rows whose `session_id` matches. -/
def leadRows (db : DB) (session_id : String) : Nat :=
  (db.leads.filter (fun l => l.session_id = session_id)).length

/-- The `mensagens` rows of one session, in table order. -/
def sessionMsgs (db : DB) (session_id : String) : List Msg :=
  db.mensagens.filter (fun m => m.session_id = session_id)

/-- `create_lead` iterated `n` times for the same `session_id`. -/
def createN (n : Nat) (db : DB) (session_id : String) : DB :=
  match n with
  | 0 => db
  | Nat.succ m => createN m (create_lead db session_id).2 session_id

/-! ## Helper lemmas about `update_lead` and `create_lead` -/

theorem applyField_session_id (l : Lead) (kv : String × Val) :
    (applyField l kv).session_id = l.session_id := by
  rcases kv with ⟨k, v⟩
  cases v <;> simp only [applyField] <;> split_ifs <;> rfl

theorem foldl_applyField_session_id (l : Lead) (fs : List (String × Val)) :
    (fs.foldl applyField l).session_id = l.session_id := by
  induction fs generalizing l with
  | nil => rfl
  | cons kv fs ih => rw [List.foldl_cons, ih, applyField_session_id]

theorem length_filter_map_session (ls : List Lead) (sid : String) (f : Lead → Lead)
    (hf : ∀ l, (f l).session_id = l.session_id) :
    ((ls.map f).filter (fun l => l.session_id = sid)).length =
      (ls.filter (fun l => l.session_id = sid)).length := by
  induction ls with
  | nil => rfl
  | cons a ls ih =>
    simp only [List.map_cons, List.filter_cons, hf a]
    by_cases h : a.session_id = sid <;> simp [h, ih]

theorem leadRows_update (db : DB) (sid sid2 : String) (data : List (String × Val)) :
    leadRows (update_lead db sid2 data).2 sid = leadRows db sid := by
  rw [update_lead]
  split
  · rfl
  · show leadRows { db with leads := db.leads.map _ } sid = leadRows db sid
    simp only [leadRows]
    refine length_filter_map_session db.leads sid _ (fun l => ?_)
    by_cases hl : l.session_id = sid2
    · simp [hl, foldl_applyField_session_id]
    · simp [hl]

theorem leadRows_save (ok : Bool) (db : DB) (sid sid2 role content : String) :
    leadRows (save_message_r ok db sid2 role content).2 sid = leadRows db sid := by
  rw [save_message_r]
  cases ok <;> rfl

theorem any_session_iff (db : DB) (sid : String) :
    db.leads.any (fun l => l.session_id = sid) = true ↔
      ∃ l ∈ db.leads, l.session_id = sid := by
  simp [List.any_eq_true]

theorem leadRows_pos_iff (db : DB) (sid : String) :
    0 < leadRows db sid ↔ ∃ l ∈ db.leads, l.session_id = sid := by
  simp [leadRows, List.length_pos, Ne, List.filter_eq_nil_iff]

theorem create_lead_existing (db : DB) (sid : String)
    (h : 0 < leadRows db sid) : create_lead db sid = (true, db) := by
  rw [create_lead,
    if_pos ((any_session_iff db sid).mpr ((leadRows_pos_iff db sid).mp h))]

theorem leadRows_create_self (db : DB) (sid : String)
    (h : leadRows db sid ≤ 1) : leadRows (create_lead db sid).2 sid = 1 := by
  rw [create_lead]
  by_cases hx : ∃ l ∈ db.leads, l.session_id = sid
  · rw [if_pos ((any_session_iff db sid).mpr hx)]
    have hpos := (leadRows_pos_iff db sid).mpr hx
    show leadRows db sid = 1
    omega
  · rw [if_neg (fun hc => hx ((any_session_iff db sid).mp hc))]
    have hz : leadRows db sid = 0 := by
      by_contra hnz
      exact hx ((leadRows_pos_iff db sid).mp (Nat.pos_of_ne_zero hnz))
    have hnil : db.leads.filter (fun l => l.session_id = sid) = [] :=
      List.length_eq_zero.mp hz
    simp [leadRows, List.filter_append, hnil]

theorem leadRows_create_le (db : DB) (sid sid2 : String)
    (h : leadRows db sid ≤ 1) : leadRows (create_lead db sid2).2 sid ≤ 1 := by
  rcases eq_or_ne sid2 sid with hss | hss
  · subst hss
    rw [leadRows_create_self db sid2 h]
  · rw [create_lead]
    split
    · exact h
    · have heq : leadRows { db with leads := db.leads ++ [{ session_id := sid2 }] } sid =
          leadRows db sid := by
        simp [leadRows, List.filter_append, hss]
      rw [heq]
      exact h

theorem createN_of_pos (m : Nat) (db : DB) (sid : String)
    (h : 0 < leadRows db sid) : createN m db sid = db := by
  induction m with
  | zero => rfl
  | succ m ih =>
    show createN m (create_lead db sid).2 sid = db
    rw [create_lead_existing db sid h]
    exact ih

theorem map_id_of_eq {α : Type} (l : List α) (f : α → α) (h : ∀ a ∈ l, f a = a) :
    l.map f = l := by
  induction l with
  | nil => rfl
  | cons a t ih =>
    rw [List.map_cons, h a (List.mem_cons_self a t),
      ih (fun b hb => h b (List.mem_cons_of_mem a hb))]

/-- A database with one lead row, used to instantiate witnesses. -/
def sampleLeadDB : DB :=
  { leads := [{ session_id := "s1" }], mensagens := [], nextTs := 0 }

/-- C4: starting from any state respecting the zero-or-one-row invariant,
calling `create_lead` any positive number of times leaves exactly one `leads`
row for that session; duplicate creation for an existing identifier is a
no-op returning `true`, not an error; and `create_lead`, `update_lead` and
`save_message` each preserve the invariant. -/
theorem create_lead_idempotent (db : DB) (sid sid2 : String)
    (data : List (String × Val)) (ok : Bool) (role content : String) (n : Nat)
    (hinv : leadRows db sid ≤ 1) (hn : 1 ≤ n) :
    leadRows (createN n db sid) sid = 1 ∧
    (0 < leadRows db sid → create_lead db sid = (true, db)) ∧
    leadRows (create_lead db sid2).2 sid ≤ 1 ∧
    leadRows (update_lead db sid2 data).2 sid ≤ 1 ∧
    leadRows (save_message_r ok db sid2 role content).2 sid ≤ 1 := by
  refine ⟨?_, fun hpos => create_lead_existing db sid hpos,
    leadRows_create_le db sid sid2 hinv, ?_, ?_⟩
  · cases n with
    | zero => omega
    | succ m =>
      show leadRows (createN m (create_lead db sid).2 sid) sid = 1
      have h1 := leadRows_create_self db sid hinv
      rw [createN_of_pos m _ sid (by omega)]
      exact h1
  · rw [leadRows_update]
    exact hinv
  · rw [leadRows_save]
    exact hinv

/-- Witness for C4: two `create_lead` calls on a fresh database leave exactly
one row, and concrete instances of the remaining conjuncts. -/
theorem create_lead_idempotent_witness :
    leadRows (createN 2 initDB "a") "a" = 1 ∧
    (0 < leadRows initDB "a" → create_lead initDB "a" = (true, initDB)) ∧
    leadRows (create_lead initDB "b").2 "a" ≤ 1 ∧
    leadRows (update_lead initDB "b" [("nome", Val.vstr "x")]).2 "a" ≤ 1 ∧
    leadRows (save_message_r true initDB "b" "user" "oi").2 "a" ≤ 1 :=
  create_lead_idempotent initDB "a" "b" [("nome", Val.vstr "x")] true "user" "oi" 2
    (by decide) (by decide)

/-- C6: keys outside the allow-list are silently ignored by `update_lead` —
updating with `data` is updating with the allow-listed restriction of `data` —
and a mapping with no allow-listed key at all leaves the database unchanged
while the call still returns `true`. -/
theorem update_lead_allowlist (db : DB) (sid : String)
    (data noise : List (String × Val))
    (h : ∀ kv ∈ noise, ¬ kv.1 ∈ allowed_fields) :
    update_lead db sid data =
      update_lead db sid (data.filter (fun kv => allowed_fields.contains kv.1)) ∧
    update_lead db sid noise = (true, db) := by
  constructor
  · have hff : (data.filter (fun kv => allowed_fields.contains kv.1)).filter
        (fun kv => allowed_fields.contains kv.1) =
        data.filter (fun kv => allowed_fields.contains kv.1) := by
      rw [List.filter_filter]
      simp [Bool.and_self]
    simp only [update_lead]
    rw [hff]
  · have hnil : noise.filter (fun kv => allowed_fields.contains kv.1) = [] :=
      List.filter_eq_nil_iff.mpr (fun kv hkv => by simpa using h kv hkv)
    simp only [update_lead]
    rw [hnil]
    simp

/-- Witness for C6 with a mapping holding one allow-listed and one unknown
key, over a one-lead database. -/
theorem update_lead_allowlist_witness :
    update_lead sampleLeadDB "s1" [("nome", Val.vstr "Ana"), ("hack", Val.vstr "x")] =
      update_lead sampleLeadDB "s1"
        ([("nome", Val.vstr "Ana"), ("hack", Val.vstr "x")].filter
          (fun kv => allowed_fields.contains kv.1)) ∧
    update_lead sampleLeadDB "s1" [("hack", Val.vstr "x")] = (true, sampleLeadDB) :=
  update_lead_allowlist sampleLeadDB "s1"
    [("nome", Val.vstr "Ana"), ("hack", Val.vstr "x")] [("hack", Val.vstr "x")]
    (by decide)

/-- C10: `update_lead` for a session with no lead row, given at least one
allow-listed key, matches zero rows, changes nothing, and still returns
`true` — indistinguishable from an effective update. -/
theorem update_lead_missing_session (db : DB) (sid : String)
    (data : List (String × Val))
    (hnorow : ∀ l ∈ db.leads, l.session_id ≠ sid)
    (hkey : ∃ kv ∈ data, kv.1 ∈ allowed_fields) :
    update_lead db sid data = (true, db) := by
  rcases hkey with ⟨kv, hkv, hmem⟩
  have hmemf : kv ∈ data.filter (fun kv => allowed_fields.contains kv.1) :=
    List.mem_filter.mpr ⟨hkv, by simpa using hmem⟩
  have hne : (data.filter (fun kv => allowed_fields.contains kv.1)).isEmpty = false := by
    cases hthe : data.filter (fun kv => allowed_fields.contains kv.1) with
    | nil =>
      rw [hthe] at hmemf
      exact absurd hmemf (List.not_mem_nil kv)
    | cons a t => rfl
  simp only [update_lead]
  rw [hne]
  have hmap : db.leads.map (fun l =>
      if l.session_id = sid then
        (data.filter (fun kv => allowed_fields.contains kv.1)).foldl applyField l
      else l) = db.leads :=
    map_id_of_eq _ _ (fun l hl => by simp [hnorow l hl])
  simp only [Bool.false_eq_true, if_false, hmap]

/-- Witness for C10: updating the email of a session that has no lead row. -/
theorem update_lead_missing_session_witness :
    update_lead sampleLeadDB "nope" [("email", Val.vstr "a@b.c")] =
      (true, sampleLeadDB) :=
  update_lead_missing_session sampleLeadDB "nope" [("email", Val.vstr "a@b.c")]
    (by decide) (by decide)

/-! ## Helper lemmas about message history -/

/-- Saving a sequence of (role, content) pairs one after another under one
session, each save succeeding. -/
def saveAll (db : DB) (session_id : String) (msgs : List (String × String)) : DB :=
  msgs.foldl (fun d rc => (save_message d session_id rc.1 rc.2).2) db

/-- The message rows a saved sequence turns into, timestamped from `t`. -/
def rowsFrom (session_id : String) (t : Nat) : List (String × String) → List Msg
  | [] => []
  | rc :: ms =>
    { session_id := session_id, role := rc.1, content := rc.2, timestamp := t } ::
      rowsFrom session_id (t + 1) ms

/-- Non-strict ascending timestamps along a message list. -/
def tsSorted : List Msg → Prop
  | [] => True
  | [_] => True
  | x :: y :: r => x.timestamp ≤ y.timestamp ∧ tsSorted (y :: r)

theorem orderByTs_sorted (l : List Msg) (h : tsSorted l) : orderByTs l = l := by
  induction l with
  | nil => rfl
  | cons x xs ih =>
    cases xs with
    | nil => rfl
    | cons y ys =>
      rcases h with ⟨hxy, hys⟩
      show insertTs x (orderByTs (y :: ys)) = x :: y :: ys
      rw [ih hys, insertTs, if_neg (by omega)]

theorem orderByTs_pair (a b : Msg) (h : a.timestamp ≤ b.timestamp) :
    orderByTs [a, b] = [a, b] :=
  orderByTs_sorted [a, b] ⟨h, trivial⟩

theorem tsSorted_rowsFrom (sid : String) (msgs : List (String × String)) :
    ∀ t, tsSorted (rowsFrom sid t msgs) := by
  induction msgs with
  | nil => intro t; trivial
  | cons rc ms ih =>
    intro t
    cases ms with
    | nil => trivial
    | cons rc2 ms2 => exact ⟨Nat.le_succ t, ih (t + 1)⟩

theorem rowsFrom_pairs (sid : String) (msgs : List (String × String)) :
    ∀ t, (rowsFrom sid t msgs).map (fun m => (m.role, m.content)) = msgs := by
  induction msgs with
  | nil => intro t; rfl
  | cons rc ms ih => intro t; simp [rowsFrom, ih (t + 1)]

theorem sessionMsgs_save (db : DB) (sid role content : String) :
    sessionMsgs (save_message db sid role content).2 sid =
      sessionMsgs db sid ++
        [{ session_id := sid, role := role, content := content,
           timestamp := db.nextTs }] := by
  simp [sessionMsgs, save_message, save_message_r, List.filter_append]

theorem sessionMsgs_saveAll (db : DB) (sid : String)
    (msgs : List (String × String)) :
    sessionMsgs (saveAll db sid msgs) sid =
      sessionMsgs db sid ++ rowsFrom sid db.nextTs msgs := by
  induction msgs generalizing db with
  | nil => simp [saveAll, rowsFrom]
  | cons rc ms ih =>
    show sessionMsgs (saveAll (save_message db sid rc.1 rc.2).2 sid ms) sid = _
    rw [ih, sessionMsgs_save]
    have hts : (save_message db sid rc.1 rc.2).2.nextTs = db.nextTs + 1 := rfl
    rw [hts]
    simp [rowsFrom]

theorem get_history_eq (db : DB) (sid : String) :
    get_conversation_history db sid =
      (orderByTs (sessionMsgs db sid)).map
        (fun m =>
          ({ role := m.role, content := m.content, timestamp := m.timestamp } :
            HistEntry)) := rfl

/-- C5: round-trip fidelity — for every sequence of messages saved under one
session by `save_message`, `get_conversation_history` returns exactly that
sequence, in order, with role and content unchanged; and it returns `[]`
(never an error) when no messages exist for the session or when the
underlying storage fails. -/
theorem get_history_roundtrip (db : DB) (sid : String)
    (msgs : List (String × String))
    (hfresh : ∀ m ∈ db.mensagens, m.session_id ≠ sid) :
    (get_conversation_history (saveAll db sid msgs) sid).map
        (fun e => (e.role, e.content)) = msgs ∧
    get_conversation_history db sid = [] ∧
    get_conversation_history_r false db sid = [] := by
  have hnil : sessionMsgs db sid = [] :=
    List.filter_eq_nil_iff.mpr (fun m hm => by simpa using hfresh m hm)
  refine ⟨?_, ?_, rfl⟩
  · rw [get_history_eq, sessionMsgs_saveAll, hnil, List.nil_append,
      orderByTs_sorted _ (tsSorted_rowsFrom sid msgs db.nextTs), List.map_map]
    exact rowsFrom_pairs sid msgs db.nextTs
  · rw [get_history_eq, hnil]
    rfl

/-- Witness for C5: a two-message conversation round-trips through an empty
database. -/
theorem get_history_roundtrip_witness :
    (get_conversation_history
        (saveAll initDB "s" [("user", "a"), ("assistant", "b")]) "s").map
        (fun e => (e.role, e.content)) = [("user", "a"), ("assistant", "b")] ∧
    get_conversation_history initDB "s" = [] ∧
    get_conversation_history_r false initDB "s" = [] :=
  get_history_roundtrip initDB "s" [("user", "a"), ("assistant", "b")] (by decide)

/-! ## Statistics -/

/-- C7: the qualification rate of `get_leads_stats` is exactly 0 on zero
leads — no division is attempted — and on N > 0 leads of which Q carry the
qualified flag it equals Q/N*100 rounded to one decimal place. -/
theorem get_leads_stats_rate (db : DB) :
    (db.leads.length = 0 → (get_leads_stats db).taxa_qualificacao = 0) ∧
    (0 < db.leads.length →
      (get_leads_stats db).taxa_qualificacao =
        roundTo1 (((db.leads.filter (fun l => l.qualificado)).length : ℚ) /
          (db.leads.length : ℚ) * 100)) := by
  constructor
  · intro h
    simp [get_leads_stats, h, roundTo1]
  · intro h
    simp [get_leads_stats, h]

/-- A database whose one lead has name and email set to the empty string:
non-NULL columns holding "". -/
def emptyNameDB : DB :=
  { leads := [{ session_id := "s-empty", nome := some "", email := some "" }],
    mensagens := [], nextTs := 0 }

/-- Modelled from the words of C8: the number of leads whose name is a
non-empty string (NULL and "" both excluded). -/
def countNonEmptyNome (db : DB) : Nat :=
  (db.leads.filter (fun l => l.nome.getD "" ≠ "")).length

/-- Modelled from the words of C8: the number of leads whose email is a
non-empty string (NULL and "" both excluded). -/
def countNonEmptyEmail (db : DB) : Nat :=
  (db.leads.filter (fun l => l.email.getD "" ≠ "")).length

/-- C8 counterexample: on a lead whose name and email are the empty string,
`get_leads_stats` reports 1 lead with a name and 1 with an email — the SQL
tests `IS NOT NULL`, not non-emptiness — while the claim's non-empty counts
are 0. -/
theorem get_leads_stats_counts_cex :
    (get_leads_stats emptyNameDB).leads_com_nome = 1 ∧
    (get_leads_stats emptyNameDB).leads_com_email = 1 ∧
    countNonEmptyNome emptyNameDB = 0 ∧
    countNonEmptyEmail emptyNameDB = 0 ∧
    (get_leads_stats emptyNameDB).leads_com_nome ≠ countNonEmptyNome emptyNameDB := by
  refine ⟨rfl, rfl, rfl, rfl, by decide⟩

/-- C8 amended: `get_leads_stats` returns the count of leads whose name is
non-NULL and the count whose email is non-NULL — a lead whose name or email
is the empty string IS counted — alongside the total-leads and
qualified-flag counts. -/
theorem get_leads_stats_counts (db : DB) :
    (get_leads_stats db).leads_com_nome =
      (db.leads.filter (fun l => l.nome ≠ none)).length ∧
    (get_leads_stats db).leads_com_email =
      (db.leads.filter (fun l => l.email ≠ none)).length ∧
    (get_leads_stats db).total_leads = db.leads.length ∧
    (get_leads_stats db).leads_qualificados =
      (db.leads.filter (fun l => l.qualificado)).length ∧
    (∀ l ∈ db.leads, l.nome = some "" → 0 < (get_leads_stats db).leads_com_nome) := by
  have hnome : (fun (l : Lead) => l.nome.isSome) =
      (fun (l : Lead) => decide (l.nome ≠ none)) := by
    funext l
    cases l.nome <;> simp
  have hemail : (fun (l : Lead) => l.email.isSome) =
      (fun (l : Lead) => decide (l.email ≠ none)) := by
    funext l
    cases l.email <;> simp
  refine ⟨?_, ?_, rfl, rfl, ?_⟩
  · show (db.leads.filter (fun l => l.nome.isSome)).length = _
    rw [hnome]
  · show (db.leads.filter (fun l => l.email.isSome)).length = _
    rw [hemail]
  · intro l hl hn
    show 0 < (db.leads.filter (fun l => l.nome.isSome)).length
    rw [List.length_pos]
    exact List.ne_nil_of_mem (List.mem_filter.mpr ⟨hl, by simp [hn]⟩)

/-! ## Prompt assembly and the outbound call -/

/-- C1: `get_response` assembles the outbound prompt as one fixed
system-level instruction block first, then exactly the last 8 history
entries when the history has more than 8 (all of them when it has 8 or
fewer) with each entry's role/content pairing and relative order preserved,
then the new message as a final user-role entry; when the history exceeds 8
entries the tail taken has length 8 and is a suffix of the history. -/
theorem build_messages_spec (bot : SDRChatbot) (message : String)
    (hist : List HistEntry) :
    build_messages bot message hist =
      ({ role := "system", content := bot.system_prompt } : ChatMsg) ::
        ((if hist.length ≤ 8 then hist else hist.drop (hist.length - 8)).map
          (fun m => ({ role := m.role, content := m.content } : ChatMsg)) ++
          [{ role := "user", content := message }]) ∧
    (8 < hist.length →
      (hist.drop (hist.length - 8)).length = 8 ∧
      hist.drop (hist.length - 8) <:+ hist) := by
  constructor
  · simp only [build_messages]
    rcases Nat.lt_or_ge 8 hist.length with h | h
    · simp [h, Nat.not_le.mpr h]
    · simp [h, Nat.not_lt.mpr h]
  · intro h
    refine ⟨?_, List.drop_suffix _ _⟩
    rw [List.length_drop]
    omega

/-- C3: `get_response` never raises to its caller — every outcome of the one
outbound call yields a string: the timeout arm returns the fixed timeout
fallback, the non-2xx arm and the catch-all transport arm each return a
fixed technical-problem fallback, every failure path lands in the fixed set
of user-presentable fallbacks, and the reply depends only on a single
application of the transport (no retry). -/
theorem get_response_error_handling (bot : SDRChatbot) (message : String)
    (hist : List HistEntry) (net : List ChatMsg → ApiOutcome) :
    (net (build_messages bot message hist) = .timeout →
      get_response bot message hist net = timeout_fallback) ∧
    (net (build_messages bot message hist) = .httpError →
      get_response bot message hist net = http_error_fallback) ∧
    (net (build_messages bot message hist) = .otherError →
      get_response bot message hist net = generic_error_fallback) ∧
    ((∀ t, net (build_messages bot message hist) ≠ .success t) →
      get_response bot message hist net ∈
        [timeout_fallback, http_error_fallback, generic_error_fallback]) ∧
    (∀ net2 : List ChatMsg → ApiOutcome,
      net2 (build_messages bot message hist) = net (build_messages bot message hist) →
      get_response bot message hist net2 = get_response bot message hist net) := by
  have key : ∀ o, net (build_messages bot message hist) = o →
      get_response bot message hist net =
        (match o with
         | .success t => pyStrip t
         | .timeout => timeout_fallback
         | .httpError => http_error_fallback
         | .otherError => generic_error_fallback) := by
    intro o ho
    unfold get_response
    rw [ho]
  refine ⟨fun h => key .timeout h, fun h => key .httpError h,
    fun h => key .otherError h, ?_, ?_⟩
  · intro hfail
    cases ho : net (build_messages bot message hist) with
    | success t => exact absurd ho (hfail t)
    | timeout => rw [key .timeout ho]; simp
    | httpError => rw [key .httpError ho]; simp
    | otherError => rw [key .otherError ho]; simp
  · intro net2 he
    unfold get_response
    rw [he]

/-! ## The `/chat` handler -/

/-- The stub transport of the spec's test idea: it replies with the number of
prompt entries it received. -/
def echoNet : List ChatMsg → ApiOutcome :=
  fun ms => .success (toString ms.length)

/-- A concrete chatbot instance for witnesses and counterexamples. -/
def sampleBot : SDRChatbot :=
  { api_key := "key", system_prompt := "persona" }

/-- C2 counterexample: in the first chat turn of a fresh session the
transport receives three prompt entries, not two — the echoing stub's reply
is "3" — because the handler saves the user message before reading the
history, so the new message appears both as the stored history entry and as
the final user entry of the prompt. -/
theorem chat_first_turn_cex :
    (chat (some sampleBot) true initDB "Qual o preço?" (some "sess-1")
        true true true echoNet).1 = ChatResult.ok "3" "sess-1" ∧
    "3" ≠ "2" := by
  exact ⟨by decide, by decide⟩

/-- C2 amended: in the first chat turn of a fresh session, after the user
message is stored the store holds exactly one user-role message; the gateway
is invoked with a 3-entry prompt — the system block, the stored user entry,
and the new message again as a final user entry — and after the turn the
store holds exactly two messages, the user message followed by the
assistant reply. -/
theorem chat_first_turn (bot : SDRChatbot) (db : DB) (raw_message sid : String)
    (net : List ChatMsg → ApiOutcome)
    (hmsg : (pyStrip raw_message) ≠ "") (hsid : sid ≠ "")
    (hfresh : ∀ m ∈ db.mensagens, m.session_id ≠ sid) :
    sessionMsgs (save_message db sid "user" (pyStrip raw_message)).2 sid =
      [{ session_id := sid, role := "user", content := (pyStrip raw_message),
         timestamp := db.nextTs }] ∧
    (chat (some bot) true db raw_message (some sid) true true true net).1 =
      ChatResult.ok (get_response bot (pyStrip raw_message)
        [{ role := "user", content := (pyStrip raw_message), timestamp := db.nextTs }]
        net) sid ∧
    build_messages bot (pyStrip raw_message)
        [{ role := "user", content := (pyStrip raw_message), timestamp := db.nextTs }] =
      [{ role := "system", content := bot.system_prompt },
       { role := "user", content := (pyStrip raw_message) },
       { role := "user", content := (pyStrip raw_message) }] ∧
    (get_conversation_history
        (chat (some bot) true db raw_message (some sid) true true true net).2
        sid).map (fun e => (e.role, e.content)) =
      [("user", (pyStrip raw_message)),
       ("assistant", get_response bot (pyStrip raw_message)
         [{ role := "user", content := (pyStrip raw_message), timestamp := db.nextTs }]
         net)] := by
  have hnil : sessionMsgs db sid = [] :=
    List.filter_eq_nil_iff.mpr (fun m hm => by simpa using hfresh m hm)
  have h1 : sessionMsgs (save_message db sid "user" (pyStrip raw_message)).2 sid =
      [{ session_id := sid, role := "user", content := (pyStrip raw_message),
         timestamp := db.nextTs }] := by
    rw [sessionMsgs_save, hnil, List.nil_append]
  have hhist : get_conversation_history
      (save_message db sid "user" (pyStrip raw_message)).2 sid =
      [{ role := "user", content := (pyStrip raw_message), timestamp := db.nextTs }] := by
    rw [get_history_eq, h1]
    rfl
  have hstep : chat (some bot) true db raw_message (some sid) true true true net =
      (ChatResult.ok (get_response bot (pyStrip raw_message)
          (get_conversation_history
            (save_message db sid "user" (pyStrip raw_message)).2 sid) net) sid,
       (save_message (save_message db sid "user" (pyStrip raw_message)).2 sid
          "assistant"
          (get_response bot (pyStrip raw_message)
            (get_conversation_history
              (save_message db sid "user" (pyStrip raw_message)).2 sid) net)).2) := by
    simp only [chat]
    rw [if_neg hmsg, if_neg hsid]
    simp [save_message, get_conversation_history]
  refine ⟨h1, ?_, ?_, ?_⟩
  · rw [hstep, hhist]
  · rfl
  · rw [hstep, hhist, get_history_eq, sessionMsgs_save, h1]
    have hts : (save_message db sid "user" (pyStrip raw_message)).2.nextTs =
        db.nextTs + 1 := rfl
    rw [hts]
    simp only [List.singleton_append]
    rw [orderByTs_pair _ _ (Nat.le_succ _)]
    rfl

/-- Witness for C2's amended claim: the first turn over an empty database
with the echoing stub transport. -/
theorem chat_first_turn_witness :
    sessionMsgs (save_message initDB "s1" "user" (pyStrip "oi")).2 "s1" =
      [{ session_id := "s1", role := "user", content := (pyStrip "oi"),
         timestamp := initDB.nextTs }] ∧
    (chat (some sampleBot) true initDB "oi" (some "s1") true true true echoNet).1 =
      ChatResult.ok (get_response sampleBot (pyStrip "oi")
        [{ role := "user", content := (pyStrip "oi"), timestamp := initDB.nextTs }]
        echoNet) "s1" ∧
    build_messages sampleBot (pyStrip "oi")
        [{ role := "user", content := (pyStrip "oi"), timestamp := initDB.nextTs }] =
      [{ role := "system", content := sampleBot.system_prompt },
       { role := "user", content := (pyStrip "oi") },
       { role := "user", content := (pyStrip "oi") }] ∧
    (get_conversation_history
        (chat (some sampleBot) true initDB "oi" (some "s1") true true true
          echoNet).2 "s1").map (fun e => (e.role, e.content)) =
      [("user", (pyStrip "oi")),
       ("assistant", get_response sampleBot (pyStrip "oi")
         [{ role := "user", content := (pyStrip "oi"), timestamp := initDB.nextTs }]
         echoNet)] :=
  chat_first_turn sampleBot initDB "oi" "s1" echoNet (by decide) (by decide)
    (by decide)

/-- C9: the handler discards the booleans returned by `save_message`: with
both saves failing it still proceeds, still invokes the gateway, and still
returns a success response carrying the assistant reply while the database
is left unchanged — a 200 response does not imply either message was
stored. -/
theorem chat_ignores_save_failures (bot : SDRChatbot) (db : DB)
    (raw_message sid : String) (history_ok : Bool)
    (net : List ChatMsg → ApiOutcome)
    (hmsg : (pyStrip raw_message) ≠ "") (hsid : sid ≠ "") :
    chat (some bot) true db raw_message (some sid) false history_ok false net =
      (ChatResult.ok (get_response bot (pyStrip raw_message)
        (get_conversation_history_r history_ok db sid) net) sid, db) := by
  simp only [chat]
  rw [if_neg hmsg, if_neg hsid]
  simp [save_message_r]

/-- Witness for C9: both saves fail on an empty database, yet the handler
returns the stub transport's reply and the database is unchanged. -/
theorem chat_ignores_save_failures_witness :
    chat (some sampleBot) true initDB "oi" (some "s1") false true false echoNet =
      (ChatResult.ok (get_response sampleBot (pyStrip "oi")
        (get_conversation_history_r true initDB "s1") echoNet) "s1", initDB) :=
  chat_ignores_save_failures sampleBot initDB "oi" "s1" true echoNet
    (by decide) (by decide)
